import Mathlib

/-!
Verification of the two attestation-document generators of this repository:
`docker/scripts/generate_sbom.py` and `docker/scripts/generate_vex.py`.

The scripts build an in-memory JSON dictionary from a small metadata mapping
plus two ambient inputs (a fresh UUID from `uuid.uuid4()` and the current UTC
time from `datetime.utcnow()`), serialize it with `json.dump(..., indent=2)`,
and write it to an output path.  The embedding below models JSON values as an
inductive tree, Python dictionaries as association lists in insertion order,
the ambient UUID as an arbitrary 128-bit style natural number, the ambient
clock as an arbitrary ISO-format string, and the file write as an event trace
over a small file-system state, so that crash points of the write can be
examined.
-/

/-- JSON values as produced by the scripts: strings, integers, arrays and
objects whose members keep Python dict insertion order. -/
inductive Json where
  | str (s : String)
  | num (n : Int)
  | arr (xs : List Json)
  | obj (members : List (String × Json))

/-- Model of a Python `uuid.UUID` as returned by `uuid.uuid4()`: a 128-bit
integer (we allow any natural number; the canonical rendering only uses the
low 128 bits). -/
structure Uuid where
  val : Nat

/-- Big-endian fixed-width lowercase hexadecimal rendering of a natural
number, as Python's `%x`-style formatting used inside `str(uuid)`. -/
def hexChars : Nat → Nat → List Char
  | 0, _ => []
  | w + 1, n => hexChars w (n / 16) ++ [Nat.digitChar (n % 16)]

/-- Character list of the canonical 8-4-4-4-12 UUID rendering produced by
Python's `str(uuid)`. -/
def Uuid.toChars (u : Uuid) : List Char :=
  hexChars 8 (u.val / 2 ^ 96) ++ '-' ::
  (hexChars 4 (u.val / 2 ^ 80) ++ '-' ::
  (hexChars 4 (u.val / 2 ^ 64) ++ '-' ::
  (hexChars 4 (u.val / 2 ^ 48) ++ '-' ::
  hexChars 12 u.val)))

/-- String form of `str(uuid.uuid4())`. -/
def Uuid.render (u : Uuid) : String :=
  String.mk u.toChars

/-- Python `dict.get(key, default)` over an insertion-ordered association
list (a Python dict never holds a duplicate key, so first match suffices). -/
def dictGet (md : List (String × String)) (key : String) (dflt : String) : String :=
  match md.find? (fun kv => kv.1 == key) with
  | some kv => kv.2
  | none => dflt

/-- Embedding of `generate_minimal_sbom` from `generate_sbom.py` (the
in-memory document it builds; the file write is modelled separately).
`metadata` is the optional dict argument, `u` the ambient `uuid.uuid4()`
value and `now` the ambient `datetime.utcnow().isoformat()` string.
Metadata values are CLI strings, so Python's `str(value)` is the identity. -/
def generate_minimal_sbom (metadata : Option (List (String × String)))
    (u : Uuid) (now : String) : Json :=
  let md := metadata.getD []
  Json.obj
    [ ("bomFormat", Json.str "CycloneDX"),
      ("specVersion", Json.str "1.5"),
      ("serialNumber", Json.str ("urn:uuid:" ++ u.render)),
      ("version", Json.num 1),
      ("metadata", Json.obj
        [ ("timestamp", Json.str (now ++ "Z")),
          ("tools", Json.arr
            [ Json.obj
                [ ("vendor", Json.str "Jenkins SLSA Pipeline"),
                  ("name", Json.str "SBOM Generator"),
                  ("version", Json.str "1.0.0") ] ]),
          ("properties", Json.arr (md.map (fun kv =>
            Json.obj
              [ ("name", Json.str ("slsa:" ++ kv.1)),
                ("value", Json.str kv.2) ]))) ]),
      ("components", Json.arr []) ]

/-- Embedding of the `sample_statement` dict built inside
`generate_vex_document` of `generate_vex.py`. -/
def sample_statement (md : List (String × String)) : Json :=
  Json.obj
    [ ("vulnerability", Json.obj
        [ ("name", Json.str "CVE-PLACEHOLDER"),
          ("description", Json.str "Placeholder vulnerability for VEX template") ]),
      ("products", Json.arr
        [ Json.obj
            [ ("component", Json.str (dictGet md "component" "unknown")),
              ("version", Json.str (dictGet md "version" "1.0.0")) ] ]),
      ("status", Json.str "not_affected"),
      ("justification", Json.str "component_not_present") ]

/-- Embedding of `generate_vex_document` from `generate_vex.py` (the
in-memory document; the single sample statement is appended to the initially
empty `statements` list). -/
def generate_vex_document (metadata : Option (List (String × String)))
    (u : Uuid) (now : String) : Json :=
  let md := metadata.getD []
  Json.obj
    [ ("@context", Json.str "https://openvex.dev/ns/v0.2.0"),
      ("@id", Json.str ("https://openvex.dev/docs/" ++ u.render)),
      ("author", Json.str (dictGet md "author" "Jenkins SLSA Pipeline")),
      ("timestamp", Json.str (now ++ "Z")),
      ("version", Json.num 1),
      ("statements", Json.arr [sample_statement md]) ]

/-- Member lookup in a JSON object (first occurrence; the generated documents
never repeat a key). -/
def Json.lookup (j : Json) (k : String) : Option Json :=
  match j with
  | Json.obj ms =>
    match ms.find? (fun m => m.1 == k) with
    | some m => some m.2
    | none => none
  | _ => none

/-! ### Serialization: `json.dump(doc, f, indent=2)` -/

/-- Indentation string of `n` spaces. -/
def spaces (n : Nat) : String :=
  String.mk (List.replicate n ' ')

/-- Lowercase four-digit hexadecimal escape body used by Python's
`ensure_ascii` JSON encoder. -/
def hex4 (n : Nat) : String :=
  String.mk (hexChars 4 n)

/-- Escape of a single character as in Python's default JSON encoder
(`ensure_ascii=True`): quote and backslash get two-character escapes, the
named control characters get their short forms, other control characters and
all non-ASCII characters become `\uXXXX` (with surrogate pairs above the
basic multilingual plane). -/
def jsonEscapeChar (c : Char) : String :=
  if c = '"' then "\\\""
  else if c = '\\' then "\\\\"
  else if c = '\n' then "\\n"
  else if c = '\t' then "\\t"
  else if c = '\r' then "\\r"
  else if c = '\x08' then "\\b"
  else if c = '\x0c' then "\\f"
  else if c.toNat < 0x20 then "\\u" ++ hex4 c.toNat
  else if c.toNat < 0x7f then String.singleton c
  else if c.toNat < 0x10000 then "\\u" ++ hex4 c.toNat
  else
    "\\u" ++ hex4 (0xd800 + (c.toNat - 0x10000) / 0x400) ++
    "\\u" ++ hex4 (0xdc00 + (c.toNat - 0x10000) % 0x400)

/-- A JSON string literal: quotes around the escaped characters. -/
def jsonQuote (s : String) : String :=
  "\"" ++ String.join (s.data.map jsonEscapeChar) ++ "\""

mutual
/-- Rendering of a JSON value as Python's `json.dump(obj, f, indent=2)` at a
given indentation level: objects and arrays spread one element per line with
two extra spaces, separators are `",\n"` and `": "`, empty containers render
inline, keys keep insertion order (`sort_keys=False`). -/
def Json.render (level : Nat) : Json → String
  | Json.str s => jsonQuote s
  | Json.num n => toString n
  | Json.arr [] => "[]"
  | Json.arr (x :: xs) =>
    "[\n" ++ renderItems (level + 2) x xs ++ "\n" ++ spaces level ++ "]"
  | Json.obj [] => "\x7b\x7d"
  | Json.obj ((k, v) :: ms) =>
    "\x7b\n" ++ renderMembers (level + 2) k v ms ++ "\n" ++ spaces level ++ "\x7d"
termination_by j => sizeOf j

/-- Comma-and-newline separated rendering of the items of a non-empty JSON
array, each indented to `level`. -/
def renderItems (level : Nat) (x : Json) (xs : List Json) : String :=
  match xs with
  | [] => spaces level ++ Json.render level x
  | y :: ys => spaces level ++ Json.render level x ++ ",\n" ++ renderItems level y ys
termination_by sizeOf x + sizeOf xs

/-- Comma-and-newline separated rendering of the members of a non-empty JSON
object, each indented to `level`. -/
def renderMembers (level : Nat) (k : String) (v : Json) (ms : List (String × Json)) :
    String :=
  match ms with
  | [] => spaces level ++ jsonQuote k ++ ": " ++ Json.render level v
  | (k2, v2) :: ms2 =>
    spaces level ++ jsonQuote k ++ ": " ++ Json.render level v ++ ",\n" ++
      renderMembers level k2 v2 ms2
termination_by sizeOf v + sizeOf ms
end

/-! ### File writes

Both scripts end with `with open(output_file, 'w') as f: json.dump(doc, f)`.
Opening with mode `'w'` truncates the file at the output path at once, and
the serialized text then streams into that same path.  We model the write as
a trace of events and a crash as stopping after any event prefix, so the
observable contents of the output path at every failure point can be
stated. -/

/-- File-system events a script run can perform.  `openTrunc` is `open(p,
'w')` (create or truncate to empty), `writeChunk` appends one character of
the streamed serialization, `close` flushes, and `rename` is
`os.rename`/`os.replace` (present in the model so that the atomic-rename
strategy the spec describes is expressible; the scripts never emit it). -/
inductive FsEvent where
  | openTrunc (path : String)
  | writeChunk (path : String) (c : Char)
  | close (path : String)
  | rename (src : String) (dst : String)

/-- File-system state: contents (as characters) per path. -/
def FsState := List (String × List Char)

/-- Contents at a path, `none` when no file exists there. -/
def fsGet (fs : FsState) (p : String) : Option (List Char) :=
  match fs.find? (fun e => e.1 == p) with
  | some e => some e.2
  | none => none

/-- Overwrite or create the file at a path. -/
def fsSet (fs : FsState) (p : String) (v : List Char) : FsState :=
  (p, v) :: fs.filter (fun e => e.1 != p)

/-- Remove the file at a path. -/
def fsRemove (fs : FsState) (p : String) : FsState :=
  fs.filter (fun e => e.1 != p)

/-- Effect of one event on the file-system state. -/
def stepFs (fs : FsState) : FsEvent → FsState
  | FsEvent.openTrunc p => fsSet fs p []
  | FsEvent.writeChunk p c => fsSet fs p ((fsGet fs p).getD [] ++ [c])
  | FsEvent.close _ => fs
  | FsEvent.rename src dst =>
    match fsGet fs src with
    | some v => fsSet (fsRemove fs src) dst v
    | none => fs

/-- Replay a trace of events from a starting state. -/
def replay (fs : FsState) : List FsEvent → FsState
  | [] => fs
  | e :: es => replay (stepFs fs e) es

/-- Event trace of `with open(path, 'w') as f: f.write(content)` as both
scripts perform it: truncate the output path itself, stream the content into
it, close.  No temporary path and no rename appear. -/
def writeEvents (path : String) (content : String) : List FsEvent :=
  FsEvent.openTrunc path ::
    (content.data.map (fun c => FsEvent.writeChunk path c) ++ [FsEvent.close path])

/-- Whether an event touches only the given path (and is not a rename). -/
def touchesOnly (p : String) : FsEvent → Bool
  | FsEvent.openTrunc q => q == p
  | FsEvent.writeChunk q _ => q == p
  | FsEvent.close q => q == p
  | FsEvent.rename _ _ => false

/-- Write trace of one `generate_minimal_sbom(output_file, metadata)` call:
the serialized document streamed directly into the output path. -/
def sbomWriteTrace (output : String) (metadata : Option (List (String × String)))
    (u : Uuid) (now : String) : List FsEvent :=
  writeEvents output (Json.render 0 (generate_minimal_sbom metadata u now))

/-- Write trace of one `generate_vex_document(output_file, metadata)` call. -/
def vexWriteTrace (output : String) (metadata : Option (List (String × String)))
    (u : Uuid) (now : String) : List FsEvent :=
  writeEvents output (Json.render 0 (generate_vex_document metadata u now))

/-! ### CLI front-end of `generate_sbom.py` -/

/-- Parsed flags of `generate-sbom`, with argparse defaults exactly as
declared in `main` of `generate_sbom.py`: `--output` defaults to
`sbom.json`, `--build-id` has no default (`None`), `--build-type` defaults
to `jenkins-kubernetes`, `--slsa-level` defaults to `"3"`.  Argparse places
no constraint on any value (no `choices`, no `type`): every string is
accepted as parsed. -/
structure SbomArgs where
  output : String := "sbom.json"
  build_id : Option String := none
  build_type : String := "jenkins-kubernetes"
  slsa_level : String := "3"

/-- Metadata dict assembled by `main` of `generate_sbom.py`, in insertion
order, with `build_id` falling back to `jenkins-<unix-timestamp>`. -/
def sbomMainMetadata (args : SbomArgs) (unixTs : Nat) : List (String × String) :=
  [ ("build_type", args.build_type),
    ("slsa_level", args.slsa_level),
    ("build_id", args.build_id.getD ("jenkins-" ++ toString unixTs)) ]

/-- Outcome of one `generate-sbom` run (absent operating-system write
failures): the document built, the write trace performed on the output path
and the process exit code. -/
structure SbomRunResult where
  doc : Json
  trace : List FsEvent
  exitCode : Nat

/-- Embedding of `main` of `generate_sbom.py`: build the metadata dict from
the parsed flags, generate and write the SBOM, exit 0.  No flag validation
of any kind occurs on this path. -/
def sbom_main (args : SbomArgs) (u : Uuid) (now : String) (unixTs : Nat) :
    SbomRunResult :=
  let doc := generate_minimal_sbom (some (sbomMainMetadata args unixTs)) u now
  { doc := doc,
    trace := writeEvents args.output (Json.render 0 doc),
    exitCode := 0 }

/-! ### Navigation helpers over generated documents -/

/-- The `metadata.properties` array of an SBOM document. -/
def sbomProperties (doc : Json) : List Json :=
  match (doc.lookup "metadata").bind (fun m => m.lookup "properties") with
  | some (Json.arr ps) => ps
  | _ => []

/-- String value of a field of a JSON object. -/
def strField (j : Json) (k : String) : Option String :=
  match j.lookup k with
  | some (Json.str s) => some s
  | _ => none

/-- Value of the property named `n` in the `metadata.properties` array. -/
def propValue (doc : Json) (n : String) : Option String :=
  match (sbomProperties doc).find? (fun p => strField p "name" == some n) with
  | some p => strField p "value"
  | none => none

/-- The statements array of a VEX document. -/
def vexStatements (doc : Json) : List Json :=
  match doc.lookup "statements" with
  | some (Json.arr ps) => ps
  | _ => []

/-- Name of the vulnerability of a VEX statement. -/
def vulnName (st : Json) : Option String :=
  (st.lookup "vulnerability").bind (fun v => strField v "name")

/-! ### Format checkers (written from the external format descriptions, to
state the claims about serial numbers and CVE identifiers) -/

/-- Lowercase hexadecimal digit. -/
def isHexDigit (c : Char) : Bool :=
  c.isDigit || ('a' ≤ c && c ≤ 'f')

/-- Consume exactly `n` leading hexadecimal digits, returning the rest. -/
def dropHex : Nat → List Char → Option (List Char)
  | 0, cs => some cs
  | _ + 1, [] => none
  | n + 1, c :: cs => if isHexDigit c then dropHex n cs else none

/-- Consume one dash. -/
def dropDash : List Char → Option (List Char)
  | '-' :: cs => some cs
  | _ => none

/-- Canonical 8-4-4-4-12 UUID shape over characters. -/
def isUuidChars (cs : List Char) : Bool :=
  (dropHex 8 cs |>.bind dropDash |>.bind (dropHex 4) |>.bind dropDash
    |>.bind (dropHex 4) |>.bind dropDash |>.bind (dropHex 4) |>.bind dropDash
    |>.bind (dropHex 12)) == some []

/-- Real CVE identifier shape `CVE-<4 digits>-<4 or more digits>` over
characters. -/
def isRealCveChars : List Char → Bool
  | 'C' :: 'V' :: 'E' :: '-' :: rest =>
    let year := rest.takeWhile Char.isDigit
    let rest2 := rest.dropWhile Char.isDigit
    year.length == 4 &&
      (match rest2 with
       | '-' :: ds => decide (4 ≤ (ds.takeWhile Char.isDigit).length) &&
           ds.dropWhile Char.isDigit == []
       | _ => false)
  | _ => false

/-- Real CVE identifier shape on strings. -/
def isRealCveId (s : String) : Bool :=
  isRealCveChars s.data

/-! ### Volatile-field erasure (for the shape-idempotence claim) -/

/-- Keys whose values depend on the ambient UUID or clock: the SBOM
`serialNumber`, the VEX `@id`, and both documents' `timestamp`. -/
def volatileKey (k : String) : Bool :=
  k == "serialNumber" || k == "@id" || k == "timestamp"

mutual
/-- The document with every volatile member removed, recursively: what
remains is the run-independent shape and content. -/
def Json.stable : Json → Json
  | Json.str s => Json.str s
  | Json.num n => Json.num n
  | Json.arr xs => Json.arr (stableList xs)
  | Json.obj ms => Json.obj (stableMembers ms)
termination_by j => sizeOf j

/-- Volatile-member erasure over an array's items. -/
def stableList : List Json → List Json
  | [] => []
  | x :: xs => Json.stable x :: stableList xs
termination_by xs => sizeOf xs

/-- Volatile-member erasure over an object's members. -/
def stableMembers : List (String × Json) → List (String × Json)
  | [] => []
  | (k, v) :: ms =>
    if volatileKey k then stableMembers ms
    else (k, Json.stable v) :: stableMembers ms
termination_by ms => sizeOf ms
end

/-! ### Sanity lemma for the CVE checker -/

/-- The real-CVE checker does accept an actual CVE identifier, so the
placeholder claim below is not vacuous. -/
theorem isRealCveId_accepts_real : isRealCveId "CVE-2021-44228" = true := by decide

/-! ### Claims -/

/-- C10: calling either generator with metadata omitted (`None`) produces
exactly the same document as calling it with an empty metadata mapping. -/
theorem none_metadata_eq_empty_metadata (u : Uuid) (now : String) :
    generate_minimal_sbom none u now = generate_minimal_sbom (some []) u now ∧
    generate_vex_document none u now = generate_vex_document (some []) u now :=
  ⟨rfl, rfl⟩

/-- C9: for every metadata input, the top-level `version` field of both the
generated SBOM document and the generated VEX document is the JSON integer 1,
never a string. -/
theorem version_field_is_integer_one (md : Option (List (String × String)))
    (u : Uuid) (now : String) :
    (generate_minimal_sbom md u now).lookup "version" = some (Json.num 1) ∧
    (generate_vex_document md u now).lookup "version" = some (Json.num 1) :=
  ⟨rfl, rfl⟩

/-- C5: in the single statement of every generated VEX document, whenever the
status is `not_affected` the justification is a non-empty string. -/
theorem vex_not_affected_has_justification (md : Option (List (String × String)))
    (u : Uuid) (now : String) (st : Json)
    (hst : vexStatements (generate_vex_document md u now) = [st])
    (_hstatus : strField st "status" = some "not_affected") :
    ∃ j, strField st "justification" = some j ∧ j ≠ "" := by
  have h : sample_statement (md.getD []) = st := by
    have h0 : vexStatements (generate_vex_document md u now)
        = [sample_statement (md.getD [])] := rfl
    rw [h0] at hst
    injection hst
  rw [← h]
  exact ⟨"component_not_present", rfl, by decide⟩

/-- Witness for C5 at concrete inputs. -/
theorem vex_not_affected_has_justification_witness :
    ∃ j, strField (sample_statement []) "justification" = some j ∧ j ≠ "" :=
  vex_not_affected_has_justification (some []) ⟨0⟩ "" (sample_statement []) rfl rfl

/-- C7: for every metadata input, the vulnerability identifier of the single
VEX statement is the placeholder token `CVE-PLACEHOLDER`, which is not of
real CVE shape; no metadata can change it. -/
theorem vex_vulnerability_is_placeholder (md : Option (List (String × String)))
    (u : Uuid) (now : String) :
    vexStatements (generate_vex_document md u now) = [sample_statement (md.getD [])] ∧
    vulnName (sample_statement (md.getD [])) = some "CVE-PLACEHOLDER" ∧
    isRealCveId "CVE-PLACEHOLDER" = false :=
  ⟨rfl, rfl, by decide⟩

/-- C2 counterexample: with all optional flags omitted, the generated SBOM's
`slsa:build_type` property is `jenkins-kubernetes`, not the documented
`generic`. -/
theorem sbom_default_build_type_counterexample :
    propValue ((sbom_main {} ⟨0⟩ "" 0).doc) "slsa:build_type"
      = some "jenkins-kubernetes" ∧
    (some "jenkins-kubernetes" : Option String) ≠ some "generic" :=
  ⟨rfl, by decide⟩

/-- C2 amended: with all optional flags omitted, the generated SBOM's
`slsa:build_type` property is `jenkins-kubernetes` (the argparse default in
the code) and its `slsa:slsa_level` property is `3`. -/
theorem sbom_default_properties (u : Uuid) (now : String) (unixTs : Nat) :
    propValue ((sbom_main {} u now unixTs).doc) "slsa:build_type"
      = some "jenkins-kubernetes" ∧
    propValue ((sbom_main {} u now unixTs).doc) "slsa:slsa_level" = some "3" :=
  ⟨rfl, rfl⟩

/-- C6 counterexample: a metadata mapping whose single field has an empty
value still gets a property entry, so the properties are not in one-to-one
correspondence with the non-empty metadata fields. -/
theorem sbom_properties_empty_field_counterexample :
    (sbomProperties (generate_minimal_sbom (some [("build_id", "")]) ⟨0⟩ "")).length = 1 ∧
    (([("build_id", "")] : List (String × String)).filter
      (fun kv => kv.2 ≠ "")).length = 0 :=
  ⟨rfl, rfl⟩

/-- C6 amended: `metadata.properties` contains exactly one entry per
metadata field (whether or not the value is empty), named `slsa:` plus the
field's key and carrying the field's value; in particular a run with
`build_id` `rel-42` and `slsa_level` `3` includes the two documented
entries. -/
theorem sbom_properties_one_per_field (md : List (String × String))
    (u : Uuid) (now : String) (unixTs : Nat) :
    sbomProperties (generate_minimal_sbom (some md) u now)
      = md.map (fun kv => Json.obj
          [ ("name", Json.str ("slsa:" ++ kv.1)),
            ("value", Json.str kv.2) ]) ∧
    Json.obj [("name", Json.str "slsa:build_id"), ("value", Json.str "rel-42")] ∈
      sbomProperties ((sbom_main { build_id := some "rel-42", slsa_level := "3" }
        u now unixTs).doc) ∧
    Json.obj [("name", Json.str "slsa:slsa_level"), ("value", Json.str "3")] ∈
      sbomProperties ((sbom_main { build_id := some "rel-42", slsa_level := "3" }
        u now unixTs).doc) := by
  refine ⟨rfl, ?_, ?_⟩ <;>
    simp [sbom_main, sbomMainMetadata, sbomProperties, generate_minimal_sbom,
      Json.lookup]

/-! ### UUID rendering shape (for the serial-number claim) -/

/-- The digit characters attainable from `Nat.digitChar` on a value below 16
are lowercase hexadecimal digits. -/
theorem isHexDigit_digitChar (n : Nat) : isHexDigit (Nat.digitChar (n % 16)) = true := by
  have h : n % 16 < 16 := Nat.mod_lt _ (by norm_num)
  revert h
  generalize n % 16 = m
  intro h
  interval_cases m <;> decide

/-- Fixed-width hexadecimal rendering has exactly the requested width. -/
theorem hexChars_length (w : Nat) : ∀ n : Nat, (hexChars w n).length = w := by
  induction w with
  | zero => intro n; rfl
  | succ w ih => intro n; simp [hexChars, ih]

/-- Every character of a fixed-width hexadecimal rendering is a hexadecimal
digit. -/
theorem hexChars_all_hex (w : Nat) : ∀ n : Nat, (hexChars w n).all isHexDigit = true := by
  induction w with
  | zero => intro n; rfl
  | succ w ih =>
    intro n
    simp only [hexChars, List.all_append, List.all_cons, List.all_nil]
    simp [ih, isHexDigit_digitChar]

/-- Consuming the length of an all-hexadecimal run leaves exactly the rest. -/
theorem dropHex_all_hex (cs : List Char) (rest : List Char)
    (h : cs.all isHexDigit = true) : dropHex cs.length (cs ++ rest) = some rest := by
  induction cs with
  | nil => rfl
  | cons c cs ih =>
    simp only [List.all_cons, Bool.and_eq_true] at h
    simp [dropHex, h.1, ih h.2]

/-- Helper for peeling one hex group followed by a dash off the UUID shape. -/
theorem dropHex_hexChars (w : Nat) (n : Nat) (rest : List Char) :
    dropHex w (hexChars w n ++ rest) = some rest := by
  have h := dropHex_all_hex (hexChars w n) rest (hexChars_all_hex w n)
  rwa [hexChars_length] at h

/-- The canonical rendering of any modelled UUID value passes the 8-4-4-4-12
shape check. -/
theorem isUuidChars_toChars (u : Uuid) : isUuidChars u.toChars = true := by
  have h12 : dropHex 12 (hexChars 12 u.val ++ []) = some [] :=
    dropHex_hexChars 12 u.val []
  rw [List.append_nil] at h12
  simp [isUuidChars, Uuid.toChars, dropHex_hexChars, dropDash, h12]

/-- The canonical rendering of any modelled UUID value has 36 characters. -/
theorem toChars_length (u : Uuid) : u.toChars.length = 36 := by
  simp [Uuid.toChars, hexChars_length]

/-- C4: for every metadata input, the SBOM's `serialNumber` is the non-empty
string `urn:uuid:` followed by a 36-character canonical UUID rendering, and
its `specVersion` is `1.5`. -/
theorem sbom_serial_number_and_spec_version (md : Option (List (String × String)))
    (u : Uuid) (now : String) :
    strField (generate_minimal_sbom md u now) "serialNumber"
      = some ("urn:uuid:" ++ u.render) ∧
    ("urn:uuid:" ++ u.render) ≠ "" ∧
    ("urn:uuid:" ++ u.render).data = "urn:uuid:".data ++ u.render.data ∧
    u.render.data.length = 36 ∧
    isUuidChars u.render.data = true ∧
    strField (generate_minimal_sbom md u now) "specVersion" = some "1.5" := by
  refine ⟨rfl, ?_, ?_, ?_, ?_, rfl⟩
  · intro h
    have hd : ("urn:uuid:" ++ u.render).data = ("" : String).data := by rw [h]
    simp [String.data_append] at hd
  · simp [String.data_append]
  · exact toChars_length u
  · exact isUuidChars_toChars u

/-- C8: two runs of the same generator on the same metadata (the UUID and
clock being the only varying ambient inputs) agree on every key and value
once the `serialNumber`/`@id` and `timestamp` members are erased. -/
theorem runs_differ_only_in_volatile_fields (md : Option (List (String × String)))
    (u1 u2 : Uuid) (t1 t2 : String) :
    Json.stable (generate_minimal_sbom md u1 t1)
      = Json.stable (generate_minimal_sbom md u2 t2) ∧
    Json.stable (generate_vex_document md u1 t1)
      = Json.stable (generate_vex_document md u2 t2) := by
  constructor <;>
    simp [generate_minimal_sbom, generate_vex_document, Json.stable,
      stableMembers, stableList, volatileKey]

/-! ### Replay lemmas for the write traces -/

/-- Reading back a freshly written path. -/
theorem fsGet_fsSet_self (fs : FsState) (p : String) (v : List Char) :
    fsGet (fsSet fs p v) p = some v := by
  simp [fsGet, fsSet, List.find?_cons_of_pos]

/-- Replay distributes over trace concatenation. -/
theorem replay_append (es1 es2 : List FsEvent) :
    ∀ fs : FsState, replay fs (es1 ++ es2) = replay (replay fs es1) es2 := by
  induction es1 with
  | nil => intro fs; rfl
  | cons e es ih => intro fs; simp [replay, ih]

/-- Streaming a chunk sequence into an existing file appends it. -/
theorem replay_writeChunks (p : String) (cs : List Char) :
    ∀ (fs : FsState) (s : List Char), fsGet fs p = some s →
      fsGet (replay fs (cs.map (fun c => FsEvent.writeChunk p c))) p = some (s ++ cs) := by
  induction cs with
  | nil => intro fs s h; simpa using h
  | cons c cs ih =>
    intro fs s h
    simp only [List.map_cons, replay, stepFs, h, Option.getD_some]
    have h2 := ih (fsSet fs p (s ++ [c])) (s ++ [c]) (fsGet_fsSet_self fs p (s ++ [c]))
    simpa using h2

/-- A completed write leaves exactly the serialized content at the output
path. -/
theorem replay_writeEvents (p : String) (content : String) (fs : FsState) :
    fsGet (replay fs (writeEvents p content)) p = some content.data := by
  have h0 : fsGet (fsSet fs p []) p = some [] := fsGet_fsSet_self fs p []
  simp only [writeEvents, replay, stepFs, replay_append]
  have h1 := replay_writeChunks p content.data (fsSet fs p []) [] h0
  simp only [List.nil_append] at h1
  simp [replay, stepFs, h1]

/-- Crash points inside the streaming part of a write: after any event
prefix the path holds some prefix of the chunk sequence appended to what an
earlier truncation left there. -/
theorem replay_chunks_crash (p : String) (cs : List Char) :
    ∀ (pre suf : List FsEvent) (fs : FsState) (s : List Char),
      (cs.map (fun c => FsEvent.writeChunk p c)) ++ [FsEvent.close p] = pre ++ suf →
      fsGet fs p = some s →
      ∃ m, fsGet (replay fs pre) p = some (s ++ cs.take m) := by
  induction cs with
  | nil =>
    intro pre suf fs s heq hget
    cases pre with
    | nil => exact ⟨0, by simpa using hget⟩
    | cons e pre' =>
      simp only [List.map_nil, List.nil_append, List.cons_append] at heq
      injection heq with he heq'
      subst he
      have hpre' : pre' = [] := by
        have := heq'.symm
        exact (List.append_eq_nil.mp this).1
      subst hpre'
      exact ⟨0, by simpa [replay, stepFs] using hget⟩
  | cons c cs ih =>
    intro pre suf fs s heq hget
    cases pre with
    | nil => exact ⟨0, by simpa using hget⟩
    | cons e pre' =>
      simp only [List.map_cons, List.cons_append] at heq
      injection heq with he heq'
      subst he
      have hset : fsGet (fsSet fs p (s ++ [c])) p = some (s ++ [c]) :=
        fsGet_fsSet_self fs p (s ++ [c])
      obtain ⟨m, hm⟩ := ih pre' suf (fsSet fs p (s ++ [c])) (s ++ [c]) heq' hset
      refine ⟨m + 1, ?_⟩
      show fsGet (replay (stepFs fs (FsEvent.writeChunk p c)) pre') p = _
      simp only [stepFs, hget, Option.getD_some]
      simpa [List.append_assoc] using hm

/-- The serialization of a non-empty JSON object is a non-empty string (it
opens with a brace and a newline). -/
theorem render_obj_data_ne_nil (lvl : Nat) (k : String) (v : Json)
    (ms : List (String × Json)) :
    (Json.render lvl (Json.obj ((k, v) :: ms))).data ≠ [] := by
  have h1 : ("\x7b\n" : String).data ≠ [] := by decide
  simp only [Json.render, String.data_append]
  simp_all

/-- Every event of a script's write trace addresses the output path itself
and none is a rename: no temporary file is involved. -/
theorem writeEvents_touchesOnly (p : String) (content : String) :
    ∀ e ∈ writeEvents p content, touchesOnly p e = true := by
  intro e he
  simp only [writeEvents, List.mem_cons, List.mem_append, List.mem_map,
    List.mem_singleton] at he
  rcases he with rfl | ⟨⟨c, _, rfl⟩ | (rfl | h)⟩
  · simp [touchesOnly]
  · simp [touchesOnly]
  · simp [touchesOnly]
  · cases h

/-- Crash points of a full write trace: once the truncating open has
happened, the output path holds a prefix of the new content (and nothing
else). -/
theorem writeEvents_crash (p : String) (content : String) (fs : FsState)
    (pre suf : List FsEvent) (heq : writeEvents p content = pre ++ suf)
    (hpre : pre ≠ []) :
    ∃ m, fsGet (replay fs pre) p = some (content.data.take m) := by
  cases pre with
  | nil => exact absurd rfl hpre
  | cons e pre' =>
    simp only [writeEvents, List.cons_append] at heq
    injection heq with he heq'
    subst he
    have h0 : fsGet (fsSet fs p []) p = some [] := fsGet_fsSet_self fs p []
    obtain ⟨m, hm⟩ := replay_chunks_crash p content.data pre' suf (fsSet fs p []) [] heq' h0
    exact ⟨m, by simpa [replay, stepFs] using hm⟩

/-- C1 amended: both generators write the serialized document directly into
the final output path — every event of the write trace addresses that path
and none is a rename — so after the truncating open, a failure at any point
leaves some prefix of the new document (possibly empty or incomplete) at the
output path rather than guaranteeing the old or the new complete file. -/
theorem generator_writes_are_direct_and_truncating (output : String)
    (md : Option (List (String × String))) (u : Uuid) (now : String)
    (fs : FsState) :
    (∀ pre suf, sbomWriteTrace output md u now = pre ++ suf → pre ≠ [] →
      ∃ m, fsGet (replay fs pre) output
        = some ((Json.render 0 (generate_minimal_sbom md u now)).data.take m)) ∧
    (∀ pre suf, vexWriteTrace output md u now = pre ++ suf → pre ≠ [] →
      ∃ m, fsGet (replay fs pre) output
        = some ((Json.render 0 (generate_vex_document md u now)).data.take m)) ∧
    (∀ e ∈ sbomWriteTrace output md u now, touchesOnly output e = true) ∧
    (∀ e ∈ vexWriteTrace output md u now, touchesOnly output e = true) := by
  refine ⟨?_, ?_, writeEvents_touchesOnly _ _, writeEvents_touchesOnly _ _⟩
  · intro pre suf heq hpre
    exact writeEvents_crash output _ fs pre suf heq hpre
  · intro pre suf heq hpre
    exact writeEvents_crash output _ fs pre suf heq hpre

/-- Witness for the amended C1 at concrete inputs: crashing right after the
truncating open of an SBOM write leaves a prefix of the new document. -/
theorem generator_writes_are_direct_and_truncating_witness :
    ∃ m, fsGet (replay []
        ((sbomWriteTrace "out.json" (some [("build_id", "rel-42")]) ⟨0⟩ "T").take 1))
      "out.json"
      = some ((Json.render 0
          (generate_minimal_sbom (some [("build_id", "rel-42")]) ⟨0⟩ "T")).data.take m) :=
  (generator_writes_are_direct_and_truncating "out.json"
      (some [("build_id", "rel-42")]) ⟨0⟩ "T" []).1
    ((sbomWriteTrace "out.json" (some [("build_id", "rel-42")]) ⟨0⟩ "T").take 1)
    ((sbomWriteTrace "out.json" (some [("build_id", "rel-42")]) ⟨0⟩ "T").drop 1)
    (List.take_append_drop 1 _).symm
    (by simp [sbomWriteTrace, writeEvents])

/-- C1 counterexample: starting from an old file holding `A` at the output
path, the SBOM generator's write trace interrupted right after its first
event leaves an empty file there — neither the old nor the new complete
document. -/
theorem atomic_write_counterexample :
    fsGet (replay [("out.json", ['A'])]
        ((sbomWriteTrace "out.json" (some [("build_id", "rel-42")]) ⟨0⟩ "T").take 1))
      "out.json" = some [] ∧
    (['A'] : List Char) ≠ [] ∧
    (Json.render 0 (generate_minimal_sbom (some [("build_id", "rel-42")]) ⟨0⟩ "T")).data
      ≠ [] :=
  ⟨rfl, by decide, render_obj_data_ne_nil 0 _ _ _⟩

/-- C3 counterexample: `generate-sbom --slsa-level 7` (a value outside
`\x7b0,1,2,3\x7d`) is not rejected: the run exits 0, the document carries
the out-of-range value stringified, and the full document is written to the
output path. -/
theorem sbom_invalid_slsa_level_counterexample :
    ("7" ∉ (["0", "1", "2", "3"] : List String)) ∧
    (sbom_main { slsa_level := "7" } ⟨0⟩ "" 0).exitCode = 0 ∧
    propValue ((sbom_main { slsa_level := "7" } ⟨0⟩ "" 0).doc) "slsa:slsa_level"
      = some "7" ∧
    fsGet (replay [] ((sbom_main { slsa_level := "7" } ⟨0⟩ "" 0).trace)) "sbom.json"
      = some (Json.render 0 ((sbom_main { slsa_level := "7" } ⟨0⟩ "" 0).doc)).data ∧
    (Json.render 0 ((sbom_main { slsa_level := "7" } ⟨0⟩ "" 0).doc)).data ≠ [] :=
  ⟨by decide, rfl, rfl, replay_writeEvents _ _ _, render_obj_data_ne_nil 0 _ _ _⟩

/-- C3 amended: `generate-sbom` performs no validation of `--slsa-level`:
for every flag value, including values outside `\x7b0,1,2,3\x7d`, the run
exits 0, the value is embedded stringified in the `slsa:slsa_level`
property, and the serialized document is written to the output path. -/
theorem sbom_accepts_any_slsa_level (v : String)
    (_hv : v ∉ (["0", "1", "2", "3"] : List String))
    (u : Uuid) (now : String) (unixTs : Nat) (fs : FsState) :
    (sbom_main { slsa_level := v } u now unixTs).exitCode = 0 ∧
    propValue ((sbom_main { slsa_level := v } u now unixTs).doc) "slsa:slsa_level"
      = some v ∧
    fsGet (replay fs ((sbom_main { slsa_level := v } u now unixTs).trace)) "sbom.json"
      = some (Json.render 0 ((sbom_main { slsa_level := v } u now unixTs).doc)).data :=
  ⟨rfl, rfl, replay_writeEvents _ _ _⟩

/-- Witness for the amended C3 at concrete inputs. -/
theorem sbom_accepts_any_slsa_level_witness :
    (sbom_main { slsa_level := "9" } ⟨1⟩ "2024" 5).exitCode = 0 ∧
    propValue ((sbom_main { slsa_level := "9" } ⟨1⟩ "2024" 5).doc) "slsa:slsa_level"
      = some "9" ∧
    fsGet (replay [] ((sbom_main { slsa_level := "9" } ⟨1⟩ "2024" 5).trace)) "sbom.json"
      = some (Json.render 0 ((sbom_main { slsa_level := "9" } ⟨1⟩ "2024" 5).doc)).data :=
  sbom_accepts_any_slsa_level "9" (by decide) ⟨1⟩ "2024" 5 []

/-- Witness for C4 at concrete inputs. -/
theorem sbom_serial_number_and_spec_version_witness :
    strField (generate_minimal_sbom (some []) ⟨0⟩ "") "serialNumber"
      = some ("urn:uuid:" ++ Uuid.render ⟨0⟩) ∧
    ("urn:uuid:" ++ Uuid.render ⟨0⟩) ≠ "" ∧
    ("urn:uuid:" ++ Uuid.render ⟨0⟩).data = "urn:uuid:".data ++ (Uuid.render ⟨0⟩).data ∧
    (Uuid.render ⟨0⟩).data.length = 36 ∧
    isUuidChars (Uuid.render ⟨0⟩).data = true ∧
    strField (generate_minimal_sbom (some []) ⟨0⟩ "") "specVersion" = some "1.5" :=
  sbom_serial_number_and_spec_version (some []) ⟨0⟩ ""
